import Mathlib

/-!
Shallow embedding of `pytest_webstage/webstage.py` (the `webstage` module of
pytest-webstage): the sync/async stage facade, the element facade, the cookie
value object, and the step tree with its non-nesting invariant.

The selenium driver is an external collaborator: each embedded operation takes
the driver's response relevant to it as an argument (the list of elements the
driver finds for a selector, the current ready-state string, the raw cookie
mappings, ...), and operations whose observable behavior is the sequence of
driver calls they make (`go`, `refresh`, `until_ready`) return that call trace.
Python exceptions are modelled with `Except`; Python `None` results with
`Option`.
-/

namespace PytestWebstage

/-- A JavaScript property value as reported by the driver for
`WebElement.get_property`: `null`, a string, a number or a boolean. -/
inductive PropVal where
  | null
  | str (s : String)
  | num (n : Int)
  | boolean (b : Bool)
  deriving Repr, DecidableEq

/-- Python `str(...)` coercion on a driver-reported property value:
`str(None)` is the text `"None"`. -/
def pyStr : PropVal → String
  | .null => "None"
  | .str s => s
  | .num n => toString n
  | .boolean b => if b then "True" else "False"

/-- An underlying driver element reference (selenium `WebElement`). -/
structure WebElementRef where
  id : Nat
  deriving Repr, DecidableEq

/-- `SyncElement` wraps exactly one underlying `WebElement`
(`webstage.py` line 68-69). -/
structure SyncElement where
  e : WebElementRef
  deriving Repr, DecidableEq

/-- `Element` (the async facade) wraps a `SyncElement`
(`webstage.py` line 97-99). -/
structure Element where
  e : SyncElement
  deriving Repr, DecidableEq

/-- `Keyboard` facade, bound to one element (`webstage.py` line 29-31). -/
structure Keyboard where
  e : WebElementRef
  deriving Repr, DecidableEq

/-- One call made to the selenium driver. -/
inductive DriverCall where
  | get (url : String)
  | forward
  | back
  | refresh
  | executeScript (script : String)
  deriving Repr, DecidableEq

/-- The argument of `SyncWebStage.go`: Python `int | str`. -/
inductive GoTarget where
  | int (n : Int)
  | str (url : String)
  deriving Repr, DecidableEq

/-- `SyncWebStage.go` (`webstage.py` lines 138-147), as the sequence of driver
calls it performs: for an `int`, `name > 0` does `driver.forward()` in
`range(name)`, `name < 0` does `driver.back()` in `range(abs(name))`, and
otherwise nothing; for a `str`, one `driver.get(name)`. -/
def SyncWebStage.go : GoTarget → List DriverCall
  | .int n =>
      if n > 0 then List.replicate n.toNat .forward
      else if n < 0 then List.replicate n.natAbs .back
      else []
  | .str url => [.get url]

/-- `SyncWebStage.query_selector` (lines 149-155): wraps every element the
driver's `find_elements` returns, in order, as `Element(SyncElement(_))`. -/
def SyncWebStage.query_selector (found : List WebElementRef) : List Element :=
  found.map (fun e => Element.mk (SyncElement.mk e))

/-- The driver's `find_element`: per the WebDriver contract it returns the
first element `find_elements` would return, and raises
`NoSuchElementException` when there is none.  `none` models the exception. -/
def driverFindElement (found : List WebElementRef) : Option WebElementRef :=
  found.head?

/-- `SyncWebStage.query_selector_one` (lines 157-163): returns
`Element(SyncElement(driver.find_element(...)))`, and catches
`NoSuchElementException` into `None`. -/
def SyncWebStage.query_selector_one (found : List WebElementRef) : Option Element :=
  match driverFindElement found with
  | some e => some (Element.mk (SyncElement.mk e))
  | none => none

/-- `SyncElement.query_selector` (lines 72-78): same wrapping as the stage
version, over the element-scoped `find_elements` response. -/
def SyncElement.query_selector (found : List WebElementRef) : List Element :=
  found.map (fun e => Element.mk (SyncElement.mk e))

/-- `SyncElement.query_selector_one` (lines 80-84). -/
def SyncElement.query_selector_one (found : List WebElementRef) : Option Element :=
  match driverFindElement found with
  | some e => some (Element.mk (SyncElement.mk e))
  | none => none

/-- The observable effect of `SyncElement.click` (lines 86-87): one
`click()` dispatched on the wrapped element. -/
inductive DriverEffect where
  | clicked (e : WebElementRef)
  deriving Repr, DecidableEq

/-- `SyncElement.click` (lines 86-87). -/
def SyncElement.click (self : SyncElement) : DriverEffect :=
  .clicked self.e

/-- `SyncElement.value` (lines 89-91): `val = self.e.get_property("value");
return str(val)`.  The argument is the driver's response for the `"value"`
property read. -/
def SyncElement.value (reported : PropVal) : String :=
  pyStr reported

/-- `SyncElement.keyboard` (lines 93-94): `Keyboard(self.e)`. -/
def SyncElement.keyboard (self : SyncElement) : Keyboard :=
  Keyboard.mk self.e

/-- `SyncWebStage.href` (lines 165-166): `self.driver.current_url`. -/
def SyncWebStage.href (currentUrl : String) : String :=
  currentUrl

/-- `SyncWebStage.refresh` (lines 168-169), as its driver-call trace. -/
def SyncWebStage.refresh : List DriverCall :=
  [.refresh]

/-- `SyncWebStage.screenshot` (lines 171-172): the PNG bytes the driver
returns. -/
def SyncWebStage.screenshot (png : List Nat) : List Nat :=
  png

/-- A raw cookie mapping as returned by the driver; each field is `none` when
the corresponding key is missing from the mapping. -/
structure RawCookie where
  name : Option String
  value : Option String
  sameSite : Option String
  deriving Repr, DecidableEq

/-- The `Cookie` dataclass (lines 117-121); `same_site` defaults to `"Lax"`. -/
structure Cookie where
  name : String
  value : String
  same_site : String := "Lax"
  deriving Repr, DecidableEq

/-- Python `d[key]`: the value when the key is present, otherwise a
`KeyError`. -/
def dictGet (stored : Option String) (key : String) : Except String String :=
  match stored with
  | some v => .ok v
  | none => .error ("KeyError: " ++ key)

/-- `Cookie.fromdict` (lines 123-129): reads `d['name']`, `d['value']`,
`d['sameSite']` in that order; any missing key raises `KeyError` (the `"Lax"`
default is never used on this path). -/
def Cookie.fromdict (d : RawCookie) : Except String Cookie := do
  let n ← dictGet d.name "name"
  let v ← dictGet d.value "value"
  let s ← dictGet d.sameSite "sameSite"
  return { name := n, value := v, same_site := s }

/-- The accumulator loop of `SyncWebStage.capture_cookies` (lines 188-194):
`for o in a: result.append(Cookie.fromdict(o))`; a raised `KeyError`
propagates. -/
def captureCookiesLoop (result : List Cookie) :
    List RawCookie → Except String (List Cookie)
  | [] => .ok result
  | o :: rest =>
      match Cookie.fromdict o with
      | .ok c => captureCookiesLoop (result ++ [c]) rest
      | .error e => .error e

/-- `SyncWebStage.capture_cookies` (lines 188-194); the argument is the list of
raw mappings `self.driver.get_cookies()` returns. -/
def SyncWebStage.capture_cookies (a : List RawCookie) : Except String (List Cookie) :=
  captureCookiesLoop [] a

/-- The driver's `get_cookie(name)`: the cookie mapping whose `name` entry
matches, or `None` when the session holds no such cookie. -/
def driverGetCookie (cookies : List RawCookie) (nm : String) : Option RawCookie :=
  cookies.find? (fun c => c.name == some nm)

/-- `SyncWebStage.get_cookie` (lines 196-200): `if c := driver.get_cookie(name):
return Cookie.fromdict(c) else: return None`.  A mapping the driver returns is
non-empty, so the walrus truthiness test coincides with presence. -/
def SyncWebStage.get_cookie (cookies : List RawCookie) (nm : String) :
    Except String (Option Cookie) :=
  match driverGetCookie cookies nm with
  | some c => do
      let ck ← Cookie.fromdict c
      return some ck
  | none => .ok none

/-- The script `SyncWebStage.is_ready` executes (line 182). -/
def isReadyScript : String := "return document.readyState === 'complete'"

/-- What the driver's `execute_script` of `isReadyScript` evaluates to, given
the document's current ready-state string. -/
def scriptReadyResult (readyState : String) : Bool :=
  readyState == "complete"

/-- `SyncWebStage.is_ready` (lines 174-182):
`bool(self.driver.execute_script("return document.readyState === 'complete'"))`. -/
def SyncWebStage.is_ready (readyState : String) : Bool :=
  scriptReadyResult readyState

/-- The loop of `SyncWebStage.until_ready` (lines 184-186):
`while not self.is_ready(): time.sleep(0)`.  `docState k` is the document's
ready-state string when the `k`-th poll runs;  `fuel` bounds how many loop
iterations are unrolled (the Python loop has no bound).  The result pairs the
index of the poll that observed readiness (`none` if the fuel ran out while
still looping) with the trace of all driver calls performed. -/
def untilReadyLoop (docState : Nat → String) :
    Nat → Nat → Option Nat × List DriverCall
  | 0, _ => (none, [])
  | fuel + 1, k =>
      if SyncWebStage.is_ready (docState k) then
        (some k, [DriverCall.executeScript isReadyScript])
      else
        let rest := untilReadyLoop docState fuel (k + 1)
        (rest.1, DriverCall.executeScript isReadyScript :: rest.2)

/-- `SyncWebStage.until_ready` (lines 184-186), entered at poll index 0. -/
def SyncWebStage.until_ready (docState : Nat → String) (fuel : Nat) :
    Option Nat × List DriverCall :=
  untilReadyLoop docState fuel 0

/-- The future-like handle `_nsync` returns (`webstage.py` lines 21-22):
`run_in_executor` dispatches `fn(*args, **kwargs)` to a worker and, per the
asyncio executor contract, the future resolves to that call's result or
rejects with the exception it raised.  Exceptions are already carried inside
the operations' `Except` result types, so a resolved future is modelled by the
operation's result itself. -/
def Future (α : Type) : Type := α

/-- Awaiting the handle: yields what the dispatched call produced. -/
def Future.await {α : Type} (f : Future α) : α := f

/-- `_nsync` (lines 21-22): wraps one blocking call, preserving its argument,
into a future resolving to its outcome. -/
def _nsync {α β : Type} (fn : α → β) (a : α) : Future β := fn a

/-- Async `WebStage.go` (lines 221-222): `_nsync(self.sync.go, name)`. -/
def WebStage.go (name : GoTarget) : Future (List DriverCall) :=
  _nsync SyncWebStage.go name

/-- Async `WebStage.query_selector` (lines 224-225). -/
def WebStage.query_selector (found : List WebElementRef) : Future (List Element) :=
  _nsync SyncWebStage.query_selector found

/-- Async `WebStage.query_selector_one` (lines 227-228). -/
def WebStage.query_selector_one (found : List WebElementRef) : Future (Option Element) :=
  _nsync SyncWebStage.query_selector_one found

/-- Async `WebStage.href` (lines 230-231). -/
def WebStage.href (currentUrl : String) : Future String :=
  _nsync SyncWebStage.href currentUrl

/-- Async `WebStage.refresh` (lines 233-234). -/
def WebStage.refresh : Future (List DriverCall) :=
  _nsync (fun _ => SyncWebStage.refresh) ()

/-- Async `WebStage.screenshot` (lines 236-237). -/
def WebStage.screenshot (png : List Nat) : Future (List Nat) :=
  _nsync SyncWebStage.screenshot png

/-- Async `WebStage.is_ready` (lines 260-261). -/
def WebStage.is_ready (readyState : String) : Future Bool :=
  _nsync SyncWebStage.is_ready readyState

/-- Async `WebStage.capture_cookies` (lines 267-268). -/
def WebStage.capture_cookies (a : List RawCookie) : Future (Except String (List Cookie)) :=
  _nsync SyncWebStage.capture_cookies a

/-- Async `WebStage.get_cookie` (lines 270-271). -/
def WebStage.get_cookie (cookies : List RawCookie) (nm : String) :
    Future (Except String (Option Cookie)) :=
  _nsync (fun nm => SyncWebStage.get_cookie cookies nm) nm

/-- Async `Element.query_selector` (lines 101-102). -/
def Element.query_selector (found : List WebElementRef) : Future (List Element) :=
  _nsync SyncElement.query_selector found

/-- Async `Element.query_selector_one` (lines 104-105). -/
def Element.query_selector_one (found : List WebElementRef) : Future (Option Element) :=
  _nsync SyncElement.query_selector_one found

/-- Async `Element.click` (lines 107-108): `_nsync(self.e.click)`. -/
def Element.click (self : Element) : Future DriverEffect :=
  _nsync SyncElement.click self.e

/-- Async `Element.value` (lines 110-111). -/
def Element.value (reported : PropVal) : Future String :=
  _nsync SyncElement.value reported

/-- `Element.keyboard` (lines 113-114): `self.e.keyboard()` is called directly,
not through the adapter, and hands back the sync keyboard facade. -/
def Element.keyboard (self : Element) : Keyboard :=
  self.e.keyboard

/-- Async `WebStage.until_ready` (lines 263-265):
`while not (await self.is_ready()): await sleep(0)`.  Each awaited
`is_ready` resolves to the sync `is_ready` result for the document state at
that poll. -/
def WebStage.untilReadyLoopA (docState : Nat → String) :
    Nat → Nat → Option Nat × List DriverCall
  | 0, _ => (none, [])
  | fuel + 1, k =>
      if Future.await (WebStage.is_ready (docState k)) then
        (some k, [DriverCall.executeScript isReadyScript])
      else
        let rest := WebStage.untilReadyLoopA docState fuel (k + 1)
        (rest.1, DriverCall.executeScript isReadyScript :: rest.2)

/-- Async `WebStage.until_ready`, entered at poll index 0. -/
def WebStage.until_ready (docState : Nat → String) (fuel : Nat) :
    Option Nat × List DriverCall :=
  WebStage.untilReadyLoopA docState fuel 0

/-! ## The stage tree

`WebStage` objects form a tree through Python references (`self.parent`,
`self.children`); the heap of all stage objects created so far is made
explicit as a list of nodes addressed by allocation index. -/

/-- One `WebStage` object (`webstage.py` lines 211-215): the shared
`SyncWebStage` facade (identified by the driver it wraps), the optional
parent reference, the optional description, and the ordered children list. -/
structure StageNode where
  sync : Nat
  parent : Option Nat
  description : Option String
  children : List Nat
  deriving Repr, DecidableEq

/-- The heap of allocated `WebStage` objects; a stage reference is an index
into `stages`. -/
structure StageHeap where
  stages : List StageNode
  deriving Repr, DecidableEq

/-- The `parent` attribute of the stage at `sid`, when `sid` is allocated. -/
def StageHeap.parentOf (h : StageHeap) (sid : Nat) : Option Nat :=
  (h.stages[sid]?).bind (fun n => n.parent)

/-- `WebStage.fromdriver` (lines 217-219): one fresh root stage wrapping
`SyncWebStage(driver)`, with no parent, no description, no children. -/
def WebStage.fromdriver (driver : Nat) : StageHeap :=
  StageHeap.mk [StageNode.mk driver none none []]

/-- The `_GeneratorContextManager` value a bare call to `WebStage.step`
returns: `step` is decorated with `@contextmanager` (line 239), so calling it
only packs up the generator and its arguments — none of the body at lines
254-258 runs yet. -/
structure StepCM where
  stage : Nat
  description : String
  deriving Repr, DecidableEq

/-- Calling `stage.step(description)` (lines 239-240): constructs the context
manager; it reads nothing, mutates nothing, and cannot raise. -/
def WebStage.step (sid : Nat) (description : String) : StepCM :=
  StepCM.mk sid description

/-- Errors the step machinery can raise. -/
inductive StageError where
  | nested
  | invalidStage
  deriving Repr, DecidableEq

/-- The Python exception text: `nested` is
`TypeError('stages could not be nested')` (line 255); `invalidStage` models a
dereference of an unallocated stage id, which cannot occur in the source
(`self` always exists). -/
def StageError.message : StageError → String
  | .nested => "stages could not be nested"
  | .invalidStage => "invalid stage reference"

/-- Entering the scoped block (`__enter__` runs the generator body, lines
254-258): `if self.parent: raise TypeError(...)`; otherwise allocate
`WebStage(self.sync, parent=self, description=description)`, append it to
`self.children`, and yield it to the block.  A `WebStage` object is always
truthy, so `if self.parent:` tests exactly whether `parent` is non-null. -/
def StepCM.enter (cm : StepCM) (h : StageHeap) : Except StageError (StageHeap × Nat) :=
  match h.stages[cm.stage]? with
  | none => .error .invalidStage
  | some node =>
      if node.parent.isSome then
        .error .nested
      else
        let cid := h.stages.length
        let child := StageNode.mk node.sync (some cm.stage) (some cm.description) []
        let parentSet := h.stages.set cm.stage
          { node with children := node.children ++ [cid] }
        .ok (StageHeap.mk (parentSet ++ [child]), cid)

/-- One attempt at `with stage.step(description)`: the call followed by block
entry. -/
def stepAttempt (h : StageHeap) (sid : Nat) (d : String) :
    Except StageError (StageHeap × Nat) :=
  StepCM.enter (WebStage.step sid d) h

/-- Running a sequence of step attempts on arbitrary stages: a raised
`TypeError` leaves the heap as it was; a successful attempt continues in the
updated heap. -/
def runSteps (h : StageHeap) : List (Nat × String) → StageHeap
  | [] => h
  | (sid, d) :: ops =>
      match stepAttempt h sid d with
      | .ok (h', _) => runSteps h' ops
      | .error _ => runSteps h ops

/-- Running a sequence of step attempts on the root stage (id 0), collecting
the stage ids the scoped blocks received. -/
def runRootSteps (h : StageHeap) (received : List Nat) :
    List String → StageHeap × List Nat
  | [] => (h, received)
  | d :: ds =>
      match stepAttempt h 0 d with
      | .ok (h', cid) => runRootSteps h' (received ++ [cid]) ds
      | .error _ => runRootSteps h received ds

/-- Decidable check of the shallowness invariant: every stage with a non-null
parent has an empty children list. -/
def StageHeap.shallow (h : StageHeap) : Bool :=
  h.stages.all (fun n => !n.parent.isSome || n.children.isEmpty)

/-- A concrete heap: a root (id 0) and one child step (id 1). -/
def demoHeap : StageHeap :=
  StageHeap.mk
    [StageNode.mk 7 none none [1],
     StageNode.mk 7 (some 0) (some "first step") []]

/-- The node a successful root step allocates: shared sync facade, parent 0,
the given description, no children. -/
def childNode (drv : Nat) (d : String) : StageNode :=
  StageNode.mk drv (some 0) (some d) []

/-- The heap after the steps in `done` have been declared, in order, on the
root stage of `WebStage.fromdriver drv`. -/
def expHeap (drv : Nat) (done : List String) : StageHeap :=
  StageHeap.mk
    (StageNode.mk drv none none (List.range' 1 done.length)
      :: done.map (childNode drv))

/-- Propositional form of the shallowness invariant. -/
def ShallowP (h : StageHeap) : Prop :=
  ∀ n ∈ h.stages, n.parent.isSome = true → n.children = []

/-- A ready-state trace that becomes `"complete"` at the third poll. -/
def dsDemo : Nat → String :=
  fun n => if n = 2 then "complete" else "loading"

/-- A ready-state trace that never reports `"complete"`. -/
def dsNever : Nat → String :=
  fun _ => "loading"

end PytestWebstage

namespace PytestWebstage

/-! ## Theorems -/

/-- Claim C5: `go` with a string target performs exactly one navigate-to-URL
call; with a positive integer `n`, exactly `n` forward-history steps; with a
negative integer `-n`, exactly `n` backward-history steps; and `go(0)`
performs no driver call at all. -/
theorem go_driver_calls :
    (∀ url, SyncWebStage.go (GoTarget.str url) = [DriverCall.get url])
    ∧ (∀ n : Int, 0 < n →
        SyncWebStage.go (GoTarget.int n) = List.replicate n.toNat DriverCall.forward)
    ∧ (∀ n : Int, n < 0 →
        SyncWebStage.go (GoTarget.int n) = List.replicate n.natAbs DriverCall.back)
    ∧ SyncWebStage.go (GoTarget.int 0) = [] := by
  refine ⟨fun url => rfl, fun n hn => ?_, fun n hn => ?_, rfl⟩
  · simp [SyncWebStage.go, hn]
  · simp [SyncWebStage.go, hn, not_lt.mpr hn.le]

/-- Concrete instances of `go_driver_calls`: two forward steps for `go(2)` and
three backward steps for `go(-3)`. -/
theorem go_driver_calls_witness :
    ((0 : Int) < 2
      ∧ SyncWebStage.go (GoTarget.int 2) = List.replicate (2 : Int).toNat DriverCall.forward)
    ∧ ((-3 : Int) < 0
      ∧ SyncWebStage.go (GoTarget.int (-3)) = List.replicate (-3 : Int).natAbs DriverCall.back) :=
  ⟨⟨by decide, go_driver_calls.2.1 2 (by decide)⟩,
   ⟨by decide, go_driver_calls.2.2.1 (-3) (by decide)⟩⟩

/-- Claim C6: when the driver finds no element, `query_selector_one` returns
`None` rather than letting the `NoSuchElementException` escape; otherwise it
wraps the first DOM-order match; and `get_cookie` returns `None` when the
session has no cookie with the requested name. -/
theorem query_absent_values :
    SyncWebStage.query_selector_one [] = none
    ∧ (∀ (e : WebElementRef) (rest : List WebElementRef),
        SyncWebStage.query_selector_one (e :: rest)
          = some (Element.mk (SyncElement.mk e)))
    ∧ (∀ (cookies : List RawCookie) (nm : String),
        (∀ c ∈ cookies, c.name ≠ some nm) →
        SyncWebStage.get_cookie cookies nm = Except.ok none) := by
  refine ⟨rfl, fun e rest => rfl, fun cookies nm hnone => ?_⟩
  have hfind : driverGetCookie cookies nm = none := by
    apply List.find?_eq_none.mpr
    intro c hc
    simpa using hnone c hc
  simp [SyncWebStage.get_cookie, hfind]

/-- Concrete instances of `query_absent_values`: a one-element match and a
missing cookie name. -/
theorem query_absent_values_witness :
    SyncWebStage.query_selector_one [WebElementRef.mk 5]
        = some (Element.mk (SyncElement.mk (WebElementRef.mk 5)))
    ∧ SyncWebStage.get_cookie [RawCookie.mk (some "sess") (some "1") (some "Lax")] "missing"
        = Except.ok none :=
  ⟨query_absent_values.2.1 (WebElementRef.mk 5) [],
   query_absent_values.2.2 [RawCookie.mk (some "sess") (some "1") (some "Lax")] "missing"
     (by decide)⟩

/-- Closed form of the `capture_cookies` accumulator loop when every raw
mapping carries all three keys. -/
theorem captureCookiesLoop_allKeys (full : List (String × String × String)) :
    ∀ acc : List Cookie,
      captureCookiesLoop acc
          (full.map (fun t => RawCookie.mk (some t.1) (some t.2.1) (some t.2.2)))
        = Except.ok (acc ++ full.map (fun t => Cookie.mk t.1 t.2.1 t.2.2)) := by
  induction full with
  | nil => intro acc; simp [captureCookiesLoop]
  | cons t rest ih =>
      intro acc
      simp only [List.map_cons, captureCookiesLoop]
      have hdict : Cookie.fromdict (RawCookie.mk (some t.1) (some t.2.1) (some t.2.2))
          = Except.ok (Cookie.mk t.1 t.2.1 t.2.2) := rfl
      rw [hdict]
      refine (ih (acc ++ [Cookie.mk t.1 t.2.1 t.2.2])).trans ?_
      simp

/-- Claim C7: on a driver cookie list in which every mapping has the keys
`name`, `value` and `sameSite`, `capture_cookies` returns a same-length,
same-order list of `Cookie` values with `name`/`value` copied and `same_site`
taken from `sameSite`; and `Cookie.fromdict` fails with a `KeyError` whenever
any of the three keys is missing, instead of falling back to the `"Lax"`
default. -/
theorem capture_cookies_maps_fields :
    (∀ full : List (String × String × String),
      SyncWebStage.capture_cookies
          (full.map (fun t => RawCookie.mk (some t.1) (some t.2.1) (some t.2.2)))
        = Except.ok (full.map (fun t => Cookie.mk t.1 t.2.1 t.2.2)))
    ∧ (∀ d : RawCookie, (d.name = none ∨ d.value = none ∨ d.sameSite = none) →
        ∃ msg, Cookie.fromdict d = Except.error msg) := by
  constructor
  · intro full
    have := captureCookiesLoop_allKeys full []
    simpa [SyncWebStage.capture_cookies] using this
  · intro d h
    rcases d with ⟨n, v, s⟩
    rcases h with h | h | h
    · subst h
      exact ⟨"KeyError: name", rfl⟩
    · subst h
      cases n with
      | none => exact ⟨"KeyError: name", rfl⟩
      | some a => exact ⟨"KeyError: value", rfl⟩
    · subst h
      cases n with
      | none => exact ⟨"KeyError: name", rfl⟩
      | some a =>
          cases v with
          | none => exact ⟨"KeyError: value", rfl⟩
          | some b => exact ⟨"KeyError: sameSite", rfl⟩

/-- Concrete instances of `capture_cookies_maps_fields`: one complete mapping
is captured, and a mapping missing `sameSite` makes construction fail. -/
theorem capture_cookies_maps_fields_witness :
    SyncWebStage.capture_cookies [RawCookie.mk (some "a") (some "1") (some "Strict")]
        = Except.ok [Cookie.mk "a" "1" "Strict"]
    ∧ ∃ msg, Cookie.fromdict (RawCookie.mk (some "a") (some "1") none)
        = Except.error msg :=
  ⟨capture_cookies_maps_fields.1 [("a", "1", "Strict")],
   capture_cookies_maps_fields.2 (RawCookie.mk (some "a") (some "1") none)
     (Or.inr (Or.inr rfl))⟩

/-- Claim C10: `SyncElement.value` coerces the raw `"value"` property to text
for every driver-reported shape, so a `null` property yields the string
`"None"` rather than an absent value or an error. -/
theorem element_value_always_text :
    SyncElement.value PropVal.null = "None"
    ∧ (∀ s, SyncElement.value (PropVal.str s) = s)
    ∧ (∀ n, SyncElement.value (PropVal.num n) = toString n)
    ∧ (∀ b, SyncElement.value (PropVal.boolean b) = if b then "True" else "False") :=
  ⟨rfl, fun _ => rfl, fun _ => rfl, fun _ => rfl⟩

/-- The async polling loop runs the same iterations as the sync one: awaiting
the adapter-wrapped `is_ready` yields the sync `is_ready` result. -/
theorem untilReadyLoopA_eq (ds : Nat → String) :
    ∀ fuel k, WebStage.untilReadyLoopA ds fuel k = untilReadyLoop ds fuel k := by
  intro fuel
  induction fuel with
  | zero => intro k; rfl
  | succ n ih =>
      intro k
      simp [WebStage.untilReadyLoopA, untilReadyLoop, Future.await, WebStage.is_ready,
        _nsync, ih]

/-- Claim C9: every adapter-wrapped operation of the async stage and element
facades, awaited, yields exactly what the corresponding sync operation
returns for the same arguments.  Results are `Except` values where the sync
operation can raise, so the equalities cover the exception path too (e.g. a
`KeyError` escaping `capture_cookies`); `keyboard`, which returns the sync
facade directly rather than a handle, agrees with it as well. -/
theorem async_facade_mirrors_sync :
    (∀ name, Future.await (WebStage.go name) = SyncWebStage.go name)
    ∧ (∀ found, Future.await (WebStage.query_selector found)
        = SyncWebStage.query_selector found)
    ∧ (∀ found, Future.await (WebStage.query_selector_one found)
        = SyncWebStage.query_selector_one found)
    ∧ (∀ url, Future.await (WebStage.href url) = SyncWebStage.href url)
    ∧ Future.await WebStage.refresh = SyncWebStage.refresh
    ∧ (∀ png, Future.await (WebStage.screenshot png) = SyncWebStage.screenshot png)
    ∧ (∀ rs, Future.await (WebStage.is_ready rs) = SyncWebStage.is_ready rs)
    ∧ (∀ a, Future.await (WebStage.capture_cookies a) = SyncWebStage.capture_cookies a)
    ∧ (∀ cookies nm, Future.await (WebStage.get_cookie cookies nm)
        = SyncWebStage.get_cookie cookies nm)
    ∧ (∀ ds fuel, WebStage.until_ready ds fuel = SyncWebStage.until_ready ds fuel)
    ∧ (∀ found, Future.await (Element.query_selector found)
        = SyncElement.query_selector found)
    ∧ (∀ found, Future.await (Element.query_selector_one found)
        = SyncElement.query_selector_one found)
    ∧ (∀ el, Future.await (Element.click el) = SyncElement.click el.e)
    ∧ (∀ p, Future.await (Element.value p) = SyncElement.value p)
    ∧ (∀ el, Element.keyboard el = SyncElement.keyboard el.e) :=
  ⟨fun _ => rfl, fun _ => rfl, fun _ => rfl, fun _ => rfl, rfl, fun _ => rfl,
   fun _ => rfl, fun _ => rfl, fun _ _ => rfl,
   fun ds fuel => untilReadyLoopA_eq ds fuel 0,
   fun _ => rfl, fun _ => rfl, fun _ => rfl, fun _ => rfl, fun _ => rfl⟩

/-- Entering a step block on a stage whose `parent` is non-null raises
`TypeError('stages could not be nested')`. -/
theorem enter_nested_of_parented (h : StageHeap) (sid : Nat) (d : String)
    (hp : h.parentOf sid ≠ none) :
    StepCM.enter (WebStage.step sid d) h = Except.error StageError.nested := by
  unfold StageHeap.parentOf at hp
  cases e : h.stages[sid]? with
  | none => rw [e] at hp; simp at hp
  | some node =>
      rw [e] at hp
      simp only [Option.some_bind] at hp
      have hsome : node.parent.isSome = true := Option.isSome_iff_ne_none.mpr hp
      simp [StepCM.enter, WebStage.step, e, hsome]

/-- Claim C1: for every stage whose parent reference is non-null and every
description, the attempt to open a step on it fails with the
nesting-violation `TypeError` — never silently flattened: the stage tree is
left exactly as it was. -/
theorem step_on_parented_stage_fails (h : StageHeap) (sid : Nat) (d : String)
    (hp : h.parentOf sid ≠ none) :
    stepAttempt h sid d = Except.error StageError.nested
    ∧ runSteps h [(sid, d)] = h := by
  have he : stepAttempt h sid d = Except.error StageError.nested :=
    enter_nested_of_parented h sid d hp
  refine ⟨he, ?_⟩
  simp [runSteps, he]

/-- Concrete instance of `step_on_parented_stage_fails`: the once-stepped
stage of `demoHeap`. -/
theorem step_on_parented_stage_fails_witness :
    demoHeap.parentOf 1 ≠ none
    ∧ (stepAttempt demoHeap 1 "another step" = Except.error StageError.nested
        ∧ runSteps demoHeap [(1, "another step")] = demoHeap) :=
  ⟨by decide, step_on_parented_stage_fails demoHeap 1 "another step" (by decide)⟩

/-- Claim C2, counterexample: on the once-stepped stage (id 1 of `demoHeap`,
whose parent is the root), the bare call `step("inner")` completes normally —
`@contextmanager` only packs the suspended generator into a context-manager
value, running none of the body — and the nesting `TypeError` only appears
when the returned scoped block is entered.  So the error is deferred to block
entry, contradicting "raised at the very call, not deferred to entering the
returned scoped block". -/
theorem step_call_does_not_raise_nesting_error :
    demoHeap.parentOf 1 = some 0
    ∧ WebStage.step 1 "inner" = StepCM.mk 1 "inner"
    ∧ StepCM.enter (WebStage.step 1 "inner") demoHeap
        = Except.error StageError.nested := by
  refine ⟨by decide, rfl, ?_⟩
  rfl

/-- Claim C2 as amended: the bare call to `step` always returns a
context-manager value without raising or touching the stage tree; the
nesting-violation error is raised when the returned scoped block is entered
(still before the block body ever receives a child stage). -/
theorem nesting_error_raised_at_block_entry (h : StageHeap) (sid : Nat) (d : String)
    (hp : h.parentOf sid ≠ none) :
    (∀ d' : String, WebStage.step sid d' = StepCM.mk sid d')
    ∧ StepCM.enter (WebStage.step sid d) h = Except.error StageError.nested :=
  ⟨fun _ => rfl, enter_nested_of_parented h sid d hp⟩

/-- Concrete instance of `nesting_error_raised_at_block_entry` on `demoHeap`. -/
theorem nesting_error_raised_at_block_entry_witness :
    demoHeap.parentOf 1 ≠ none
    ∧ ((∀ d' : String, WebStage.step 1 d' = StepCM.mk 1 d')
        ∧ StepCM.enter (WebStage.step 1 "retry") demoHeap
            = Except.error StageError.nested) :=
  ⟨by decide, nesting_error_raised_at_block_entry demoHeap 1 "retry" (by decide)⟩

/-- A successful step attempt preserves the shallowness invariant: it only
appends to the children of a parentless stage and allocates a childless,
parented node. -/
theorem shallowP_step (h h' : StageHeap) (sid cid : Nat) (d : String)
    (hs : ShallowP h) (he : stepAttempt h sid d = Except.ok (h', cid)) :
    ShallowP h' := by
  unfold stepAttempt StepCM.enter WebStage.step at he
  split at he
  · exact Except.noConfusion he
  · rename_i node e
    split at he
    · exact Except.noConfusion he
    · rename_i hp
      simp only [Except.ok.injEq, Prod.mk.injEq] at he
      obtain ⟨he1, -⟩ := he
      subst he1
      intro n hn hpar
      simp only [List.mem_append, List.mem_singleton] at hn
      rcases hn with hn | hn
      · rcases List.mem_or_eq_of_mem_set hn with hmem | heq
        · exact hs n hmem hpar
        · subst heq; exact absurd hpar hp
      · subst hn; rfl

/-- Running any sequence of step attempts preserves the shallowness
invariant. -/
theorem shallowP_runSteps (ops : List (Nat × String)) :
    ∀ h : StageHeap, ShallowP h → ShallowP (runSteps h ops) := by
  induction ops with
  | nil => intro h hs; exact hs
  | cons op rest ih =>
      intro h hs
      obtain ⟨sid, d⟩ := op
      cases e : stepAttempt h sid d with
      | ok pr =>
          obtain ⟨h', cid⟩ := pr
          simp only [runSteps, e]
          exact ih h' (shallowP_step h h' sid cid d hs e)
      | error err =>
          simp only [runSteps, e]
          exact ih h hs

/-- A fresh root stage satisfies the shallowness invariant. -/
theorem shallowP_fromdriver (drv : Nat) : ShallowP (WebStage.fromdriver drv) := by
  intro n hn hpar
  simp only [WebStage.fromdriver, List.mem_singleton] at hn
  subst hn
  simp at hpar

/-- The decidable check agrees with the propositional invariant. -/
theorem shallow_eq_true_iff (h : StageHeap) : h.shallow = true ↔ ShallowP h := by
  unfold StageHeap.shallow ShallowP
  rw [List.all_eq_true]
  constructor
  · intro hall n hn hpar
    have hb := hall n hn
    simp only [hpar, Bool.not_true, Bool.false_or] at hb
    exact List.isEmpty_iff.mp hb
  · intro hp n hn
    by_cases hpar : n.parent.isSome
    · simp [hpar, List.isEmpty_iff.mpr (hp n hn hpar)]
    · simp [hpar]

/-- Claim C4: in every state reachable from a fresh root stage by any
sequence of step attempts (successful or failing, on any stage), every stage
with a non-null parent has an empty children list; and a failing step attempt
leaves the heap — hence every children list — exactly as it was. -/
theorem stage_tree_stays_shallow (drv : Nat) (ops : List (Nat × String)) :
    StageHeap.shallow (runSteps (WebStage.fromdriver drv) ops) = true
    ∧ (∀ (h : StageHeap) (sid : Nat) (d : String) (rest : List (Nat × String))
        (err : StageError), stepAttempt h sid d = Except.error err →
        runSteps h ((sid, d) :: rest) = runSteps h rest) := by
  constructor
  · exact (shallow_eq_true_iff _).mpr (shallowP_runSteps ops _ (shallowP_fromdriver drv))
  · intro h sid d rest err he
    simp [runSteps, he]

/-- Concrete instance of `stage_tree_stays_shallow`: a mixed sequence of
root steps and a rejected nested step. -/
theorem stage_tree_stays_shallow_witness :
    StageHeap.shallow (runSteps (WebStage.fromdriver 7) [(0, "a"), (1, "b"), (0, "c")]) = true
    ∧ stepAttempt demoHeap 1 "x" = Except.error StageError.nested
    ∧ runSteps demoHeap [(1, "x"), (0, "y")] = runSteps demoHeap [(0, "y")] :=
  ⟨(stage_tree_stays_shallow 7 [(0, "a"), (1, "b"), (0, "c")]).1, rfl,
   (stage_tree_stays_shallow 7 []).2 demoHeap 1 "x" [(0, "y")] StageError.nested rfl⟩

/-- Each successful root step moves `expHeap drv done` to
`expHeap drv (done ++ [d])` and hands the fresh child id to the block;
iterating over the remaining descriptions keeps the closed form. -/
theorem runRootSteps_expHeap (drv : Nat) (ds : List String) :
    ∀ (done : List String) (acc : List Nat),
      runRootSteps (expHeap drv done) acc ds
        = (expHeap drv (done ++ ds), acc ++ List.range' (done.length + 1) ds.length) := by
  induction ds with
  | nil => intro done acc; simp [runRootSteps]
  | cons d rest ih =>
      intro done acc
      have hstep : stepAttempt (expHeap drv done) 0 d
          = Except.ok (expHeap drv (done ++ [d]), done.length + 1) := by
        simp only [stepAttempt, StepCM.enter, WebStage.step, expHeap]
        simp [childNode, List.range'_concat, Nat.add_comm]
      simp only [runRootSteps, hstep]
      rw [ih (done ++ [d]) (acc ++ [done.length + 1])]
      simp [List.append_assoc, List.range'_succ]

/-- Claim C3: after any sequence of `step` calls on the root stage, the heap
is exactly the root — whose children list holds the `n` fresh child ids in
declaration order — followed by one node per description, each sharing the
root's sync facade, parented to the root, carrying its description and
childless; the ids received by the scoped blocks are exactly those children,
in order and pairwise distinct. -/
theorem root_steps_children_in_order (drv : Nat) (descs : List String) :
    (runRootSteps (WebStage.fromdriver drv) [] descs).1.stages
      = StageNode.mk drv none none (List.range' 1 descs.length)
          :: descs.map (fun d => StageNode.mk drv (some 0) (some d) [])
    ∧ (runRootSteps (WebStage.fromdriver drv) [] descs).1.stages[0]?
      = some (StageNode.mk drv none none (List.range' 1 descs.length))
    ∧ (runRootSteps (WebStage.fromdriver drv) [] descs).2
      = List.range' 1 descs.length
    ∧ ((runRootSteps (WebStage.fromdriver drv) [] descs).2).Nodup := by
  have h0 : WebStage.fromdriver drv = expHeap drv [] := by
    simp [WebStage.fromdriver, expHeap]
  rw [h0, runRootSteps_expHeap drv descs [] []]
  refine ⟨?_, ?_, ?_, ?_⟩
  · simp [expHeap, childNode]
  · simp [expHeap]
  · simp
  · simp [List.nodup_range']

/-- Success characterization of the sync polling loop: a run that returns
observed readiness at its last poll, readiness was false at every earlier
poll, and the driver-call trace is exactly one `execute_script` readiness
check per poll — nothing else. -/
theorem untilReadyLoop_some_char (ds : Nat → String) :
    ∀ (fuel k0 k : Nat) (tr : List DriverCall),
      untilReadyLoop ds fuel k0 = (some k, tr) →
      k0 ≤ k ∧ SyncWebStage.is_ready (ds k) = true
        ∧ (∀ j, k0 ≤ j → j < k → SyncWebStage.is_ready (ds j) = false)
        ∧ tr = List.replicate (k - k0 + 1) (DriverCall.executeScript isReadyScript) := by
  intro fuel
  induction fuel with
  | zero =>
      intro k0 k tr hloop
      exact absurd hloop (by simp [untilReadyLoop])
  | succ n ih =>
      intro k0 k tr hloop
      by_cases hr : SyncWebStage.is_ready (ds k0) = true
      · simp only [untilReadyLoop, hr, if_true, Prod.mk.injEq, Option.some.injEq] at hloop
        obtain ⟨rfl, htr⟩ := hloop
        refine ⟨Nat.le_refl k0, hr, ?_, ?_⟩
        · intro j hj hjk; omega
        · simp [← htr, Nat.sub_self]
      · rcases hre : untilReadyLoop ds n (k0 + 1) with ⟨r1, r2⟩
        simp only [untilReadyLoop, hr, if_false, hre, Prod.mk.injEq,
          Bool.false_eq_true] at hloop
        obtain ⟨h1, h2⟩ := hloop
        rw [h1] at hre
        obtain ⟨hle, hready, hint, htr⟩ := ih (k0 + 1) k r2 hre
        refine ⟨by omega, hready, ?_, ?_⟩
        · intro j hj hjk
          rcases Nat.eq_or_lt_of_le hj with hj0 | hj0
          · subst hj0
            exact Bool.eq_false_iff.mpr hr
          · exact hint j hj0 hjk
        · have harith : k - k0 + 1 = (k - (k0 + 1) + 1) + 1 := by omega
          rw [← h2, htr, harith]
          simp [List.replicate_succ]

/-- If the document never reports `"complete"`, the polling loop is still
running whatever fuel it is given. -/
theorem untilReadyLoop_never (ds : Nat → String) (hnever : ∀ n, ds n ≠ "complete") :
    ∀ fuel k, (untilReadyLoop ds fuel k).1 = none := by
  intro fuel
  induction fuel with
  | zero => intro k; rfl
  | succ n ih =>
      intro k
      have hr : SyncWebStage.is_ready (ds k) = false := by
        simp [SyncWebStage.is_ready, scriptReadyResult, hnever k]
      simp [untilReadyLoop, hr, ih]

/-- Claim C8: `until_ready` polls `is_ready` and performs no other driver
call (the trace is one readiness `execute_script` per poll), returns exactly
when a poll observes `"complete"` (all earlier polls observed otherwise), and
has no timeout: on a trace where the document never reports `"complete"`, no
amount of fuel makes it return.  The async variant runs the identical loop. -/
theorem until_ready_polls_until_complete :
    (∀ (ds : Nat → String) (fuel k : Nat) (tr : List DriverCall),
        SyncWebStage.until_ready ds fuel = (some k, tr) →
          ds k = "complete"
          ∧ (∀ j, j < k → ds j ≠ "complete")
          ∧ tr = List.replicate (k + 1) (DriverCall.executeScript isReadyScript))
    ∧ (∀ ds : Nat → String, (∀ n, ds n ≠ "complete") →
        ∀ fuel, (SyncWebStage.until_ready ds fuel).1 = none)
    ∧ (∀ (ds : Nat → String) (fuel : Nat),
        WebStage.until_ready ds fuel = SyncWebStage.until_ready ds fuel) := by
  refine ⟨?_, ?_, ?_⟩
  · intro ds fuel k tr hloop
    obtain ⟨-, hready, hint, htr⟩ := untilReadyLoop_some_char ds fuel 0 k tr hloop
    refine ⟨?_, ?_, ?_⟩
    · simpa [SyncWebStage.is_ready, scriptReadyResult] using hready
    · intro j hj
      have hb := hint j (Nat.zero_le j) hj
      simpa [SyncWebStage.is_ready, scriptReadyResult] using hb
    · simpa using htr
  · intro ds hnever fuel
    exact untilReadyLoop_never ds hnever fuel 0
  · intro ds fuel
    exact untilReadyLoopA_eq ds fuel 0

/-- Concrete instances of `until_ready_polls_until_complete`: a document
becoming ready at the third poll, and one that never becomes ready. -/
theorem until_ready_polls_until_complete_witness :
    (dsDemo 2 = "complete"
      ∧ (∀ j, j < 2 → dsDemo j ≠ "complete")
      ∧ List.replicate 3 (DriverCall.executeScript isReadyScript)
          = List.replicate (2 + 1) (DriverCall.executeScript isReadyScript))
    ∧ (SyncWebStage.until_ready dsNever 4).1 = none :=
  ⟨until_ready_polls_until_complete.1 dsDemo 5 2
      (List.replicate 3 (DriverCall.executeScript isReadyScript)) (by decide),
   until_ready_polls_until_complete.2.1 dsNever (by intro n; simp [dsNever]) 4⟩

end PytestWebstage
